import Mathlib

/-!
Verification of the frndlytv Kodi add-on core
(`resources/lib/frndly_api.py`, `resources/lib/webserver.py`, `service.py`).

The Python code is shallowly embedded: pure fragments become Lean
functions, Python exceptions become `Except`/`Option` results, Python
`float` Unix timestamps are modelled as integers (all behaviour under
scrutiny is exact arithmetic on second-resolution timestamps), and the
division in `Program.get_progress` is carried out in `ℚ`.
-/

/-! ## Python string primitives

Models of `str.lower`, `str.strip` and string comparison as used by the
source.  `Char.toLower` matches CPython's ASCII lowering on the ASCII
range used by the add-on. -/

/-- Python `str.lower()` (ASCII range, as exercised by the add-on). -/
def pyLower (s : String) : String := ⟨s.data.map Char.toLower⟩

/-- Characters removed by Python `str.strip()`. -/
def isPySpace (c : Char) : Bool :=
  c = ' ' || c = '\t' || c = '\n' || c = '\r' || c = '\x0b' || c = '\x0c'

/-- `str.strip()` on a character list: drop whitespace from both ends. -/
def stripL (l : List Char) : List Char :=
  ((l.dropWhile isPySpace).reverse.dropWhile isPySpace).reverse

/-- Python `str.strip()`. -/
def pyStrip (s : String) : String := ⟨stripL s.data⟩

/-- Lexicographic code-point comparison, Python's `<` on strings. -/
def strLtL : List Char → List Char → Bool
  | _, [] => false
  | [], _ :: _ => true
  | a :: as, b :: bs =>
    if a.toNat < b.toNat then true
    else if b.toNat < a.toNat then false
    else strLtL as bs

/-- Python `a <= b` on strings. -/
def pyStrLe (a b : String) : Bool := !(strLtL b.data a.data)

/-- Python `int()` truncation toward zero, on an exact rational. -/
def pyInt (q : ℚ) : ℤ := if 0 ≤ q then q.floor else -((-q).floor)

theorem pyInt_eq_floor (q : ℚ) (h : 0 ≤ q) : pyInt q = ⌊q⌋ := by
  simp only [pyInt, if_pos h]
  rw [Rat.floor_def, Rat.floor_def']

/-! ## `Program.get_progress` (frndly_api.py lines 233-242)

```python
def get_progress(self):
    if not self.start_time or not self.end_time:
        return 0
    cur_time = time.time()
    if cur_time < self.start_time:
        return 0
    if cur_time > self.end_time:
        return 100
    return int((cur_time - self.start_time) / (self.end_time - self.start_time) * 100)
```

`none` models the `ZeroDivisionError` escaping when the final division
runs with `end_time == start_time`. -/

def get_progress (start_time end_time cur_time : ℤ) : Option ℤ :=
  if start_time = 0 ∨ end_time = 0 then some 0
  else if cur_time < start_time then some 0
  else if cur_time > end_time then some 100
  else if end_time - start_time = 0 then none
  else some (pyInt (((cur_time : ℚ) - start_time) / ((end_time : ℚ) - start_time) * 100))

/-- C1 counterexample: a zero-width window with `start_time = end_time = 1000`
and `now = 1000` makes `get_progress` raise `ZeroDivisionError` (modelled
as `none`) instead of returning `0` as the claim states. -/
theorem get_progress_zero_width_raises : get_progress 1000 1000 1000 = none := by decide

/-- C1 (amended): `get_progress` returns `0` when either stored time is `0`
(Python falsiness guard), `0` when `now < start`, `100` when `now > end`,
and the truncated linear interpolation otherwise; every value actually
returned lies in `[0, 100]`.  However a zero-width window with
`start = end ≠ 0` raises `ZeroDivisionError` (result `none`) when
`start ≤ now ≤ end`, rather than yielding `0`. -/
theorem get_progress_cases_and_bounds (s e n : ℤ) :
    ((s = 0 ∨ e = 0) → get_progress s e n = some 0) ∧
    (¬(s = 0 ∨ e = 0) → n < s → get_progress s e n = some 0) ∧
    (¬(s = 0 ∨ e = 0) → ¬ n < s → n > e → get_progress s e n = some 100) ∧
    (¬(s = 0 ∨ e = 0) → ¬ n < s → ¬ n > e → e = s → get_progress s e n = none) ∧
    (¬(s = 0 ∨ e = 0) → ¬ n < s → ¬ n > e → e ≠ s →
      get_progress s e n = some (pyInt (((n : ℚ) - s) / ((e : ℚ) - s) * 100))) ∧
    (∀ p, get_progress s e n = some p → 0 ≤ p ∧ p ≤ 100) := by
  refine ⟨?_, ?_, ?_, ?_, ?_, ?_⟩
  · intro h; simp [get_progress, h]
  · intro h hlt; simp [get_progress, h, hlt]
  · intro h hlt hgt; simp [get_progress, h, hlt, hgt]
  · intro h hlt hgt heq; simp [get_progress, h, hlt, hgt, sub_eq_zero.mpr heq]
  · intro h hlt hgt hne
    have : ¬ (e - s = 0) := fun hc => hne (by omega)
    simp [get_progress, h, hlt, hgt, this]
  · intro p hp
    by_cases h0 : s = 0 ∨ e = 0
    · rw [get_progress, if_pos h0] at hp
      obtain rfl : (0 : ℤ) = p := Option.some.inj hp
      omega
    rw [get_progress, if_neg h0] at hp
    by_cases h1 : n < s
    · rw [if_pos h1] at hp
      obtain rfl : (0 : ℤ) = p := Option.some.inj hp
      omega
    rw [if_neg h1] at hp
    by_cases h2 : n > e
    · rw [if_pos h2] at hp
      obtain rfl : (100 : ℤ) = p := Option.some.inj hp
      omega
    rw [if_neg h2] at hp
    by_cases h3 : e - s = 0
    · rw [if_pos h3] at hp
      exact absurd hp (by simp)
    · rw [if_neg h3] at hp
      obtain rfl := Option.some.inj hp
      have hsn : s ≤ n := by omega
      have hnle : n ≤ e := by omega
      have hse : s < e := by omega
      have hden : (0 : ℚ) < (e : ℚ) - s := by
        have : (s : ℚ) < e := by exact_mod_cast hse
        linarith
      have hnum0 : (0 : ℚ) ≤ (n : ℚ) - s := by
        have : (s : ℚ) ≤ n := by exact_mod_cast hsn
        linarith
      have hnum1 : (n : ℚ) - s ≤ (e : ℚ) - s := by
        have : (n : ℚ) ≤ e := by exact_mod_cast hnle
        linarith
      have hq0 : (0 : ℚ) ≤ ((n : ℚ) - s) / ((e : ℚ) - s) :=
        div_nonneg hnum0 (le_of_lt hden)
      have hq1 : ((n : ℚ) - s) / ((e : ℚ) - s) ≤ 1 := by
        rw [div_le_one hden]; exact hnum1
      have hv0 : (0 : ℚ) ≤ ((n : ℚ) - s) / ((e : ℚ) - s) * 100 := by positivity
      have hv1 : ((n : ℚ) - s) / ((e : ℚ) - s) * 100 ≤ 100 := by nlinarith
      rw [pyInt_eq_floor _ hv0]
      constructor
      · exact Int.floor_nonneg.mpr hv0
      · have := Int.floor_le_floor (α := ℚ) hv1
        simpa using this

/-- Witness for `get_progress_cases_and_bounds` at concrete inputs. -/
theorem get_progress_cases_witness :
    get_progress 10 20 40 = some 100 ∧ get_progress 0 20 5 = some 0 := by
  refine ⟨(get_progress_cases_and_bounds 10 20 40).2.2.1 ?_ ?_ ?_,
          (get_progress_cases_and_bounds 0 20 5).1 ?_⟩ <;> decide

/-! ## Session persistence (frndly_api.py lines 61, 461-479)

```python
FORCE_LOGIN = 60 * 60 * 5  # Force login after 5 hours

def _load_session(self):
    ...
    session_id = data.get('session_id')
    last_login = data.get('last_login', 0)
    if session_id and (time.time() - last_login) < FORCE_LOGIN:
        self._headers['session-id'] = session_id
        self._last_login = last_login
        return True
    ...
    return False
```
-/

def FORCE_LOGIN : ℤ := 60 * 60 * 5

/-- A persisted session record: token plus last-login Unix timestamp. -/
structure SessionFile where
  session_id : String
  last_login : ℤ
deriving DecidableEq, Repr

/-- `FrndlyTV._load_session` on a successfully read cache file: returns the
installed (token, timestamp) pair, or `none` when restoration is refused. -/
def load_session (f : SessionFile) (now : ℤ) : Option SessionFile :=
  if f.session_id ≠ "" ∧ now - f.last_login < FORCE_LOGIN then some f else none

/-- C3: a persisted session with a non-empty token is restored (token
installed) iff the elapsed time since the stored last-login timestamp is
strictly below the 5-hour TTL; otherwise nothing is installed and the
restore reports failure. -/
theorem load_session_ttl (sid : String) (ll now : ℤ) (hsid : sid ≠ "") :
    (load_session ⟨sid, ll⟩ now = some ⟨sid, ll⟩ ↔ now - ll < FORCE_LOGIN) ∧
    (load_session ⟨sid, ll⟩ now = none ↔ ¬ now - ll < FORCE_LOGIN) := by
  constructor
  · constructor
    · intro h
      by_contra hc
      simp [load_session, hc] at h
    · intro h
      simp [load_session, hsid, h]
  · constructor
    · intro h
      intro hc
      simp [load_session, hsid, hc] at h
    · intro h
      simp [load_session, h]

/-- Witness for `load_session_ttl`: a session persisted 4 hours (14400 s)
ago is restored; one persisted 6 hours (21600 s) ago is rejected. -/
theorem load_session_ttl_witness :
    load_session ⟨"tok", 0⟩ 14400 = some ⟨"tok", 0⟩ ∧
    load_session ⟨"tok", 0⟩ 21600 = none := by
  refine ⟨(load_session_ttl "tok" 0 14400 ?_).1.mpr ?_,
          (load_session_ttl "tok" 0 21600 ?_).2.mpr ?_⟩ <;> decide

/-! ## Client session state, `is_logged_in`, `logout`
(frndly_api.py lines 811-827) -/

/-- Upstream channel-catalog row (the fields the embedded operations
read: `id`, `display.title`, `metadata.isChannelBanner`). -/
structure ChannelRow where
  id : String
  title : String
  isChannelBanner : String
deriving DecidableEq, Repr

/-- In-memory client state touched by `logout` / `is_logged_in`:
the `session-id` header, `_last_login`, and `_channels_cache`. -/
structure ClientState where
  headers_session : Option String
  last_login : ℤ
  channels_cache : Option (List ChannelRow)
deriving DecidableEq, Repr

/-- `FrndlyTV.logout`: drop the `session-id` header, reset `_last_login`
to 0, clear `_channels_cache` (the on-disk cache file is also removed). -/
def logout (st : ClientState) : ClientState :=
  { st with headers_session := none, last_login := 0, channels_cache := none }

/-- `FrndlyTV.is_logged_in`: header present and within the 5-hour TTL. -/
def is_logged_in (st : ClientState) (now : ℤ) : Bool :=
  st.headers_session.isSome && decide (now - st.last_login < FORCE_LOGIN)

/-- C9: after `logout` the session header is absent, the last-login
timestamp is `0`, the channel cache is cleared, and `is_logged_in` is
`false` at every `now`. -/
theorem logout_clears_session (st : ClientState) (now : ℤ) :
    is_logged_in (logout st) now = false ∧
    (logout st).headers_session = none ∧
    (logout st).last_login = 0 ∧
    (logout st).channels_cache = none := by
  refine ⟨?_, rfl, rfl, rfl⟩
  simp [is_logged_in, logout]

/-! ## `FrndlyTV.channels` (frndly_api.py lines 691-713)

```python
rows = self._request(...)
channels = rows.get('data', [])
if not channels:
    raise FrndlyException(
        'No channels returned. This is likely due to your IP location. '
        'Frndly TV may not be available in your region.')
channels = [
    ch for ch in channels
    if ch.get('metadata', {}).get('isChannelBanner', '').lower() != 'true'
]
```

Note the emptiness test runs on the raw rows, before banner filtering. -/

def regionErrorMsg : String :=
  "No channels returned. This is likely due to your IP location. Frndly TV may not be available in your region."

/-- `FrndlyTV.channels` on a successfully fetched catalog `rows`. -/
def channelsOp (rows : List ChannelRow) : Except String (List ChannelRow) :=
  if rows = [] then .error regionErrorMsg
  else .ok (rows.filter (fun ch => !(pyLower ch.isChannelBanner == "true")))

/-- C2 counterexample: a catalog consisting of a single channel-banner row
is empty after banner filtering, yet `channels` returns the empty list
without raising the region error. -/
theorem channelsOp_all_banners_no_error :
    channelsOp [⟨"1", "Banner", "True"⟩] = .ok [] := by rfl

/-- C2 (amended): `channels` raises the "not available in your region"
error exactly when the raw catalog is empty, before banner filtering; a
non-empty catalog always succeeds and returns exactly its non-banner rows
(those whose lower-cased banner flag differs from "true"), even when that
filtered list is empty. -/
theorem channelsOp_region_error_iff (rows : List ChannelRow) :
    (channelsOp rows = .error regionErrorMsg ↔ rows = []) ∧
    (∀ out, channelsOp rows = .ok out →
      ∀ r, r ∈ out ↔ r ∈ rows ∧ pyLower r.isChannelBanner ≠ "true") := by
  constructor
  · constructor
    · intro h
      by_contra hc
      simp [channelsOp, hc] at h
    · intro h
      simp [channelsOp, h]
  · intro out hout r
    by_cases hrows : rows = []
    · simp [channelsOp, hrows] at hout
    · simp only [channelsOp, if_neg hrows, Except.ok.injEq] at hout
      subst hout
      simp [List.mem_filter]

/-- Witness for `channelsOp_region_error_iff` at a concrete catalog. -/
theorem channelsOp_region_error_witness :
    channelsOp [] = .error regionErrorMsg ∧
    (⟨"7", "Hallmark", ""⟩ : ChannelRow) ∈
      [(⟨"7", "Hallmark", ""⟩ : ChannelRow), ⟨"8", "B", "true"⟩] ∧
    pyLower (⟨"7", "Hallmark", ""⟩ : ChannelRow).isChannelBanner ≠ "true" ∧
    channelsOp [⟨"7", "Hallmark", ""⟩, ⟨"8", "B", "true"⟩] = .ok [⟨"7", "Hallmark", ""⟩] := by
  refine ⟨(channelsOp_region_error_iff []).1.mpr rfl, ?_, ?_, ?_⟩
  · simp
  · decide
  · have := (channelsOp_region_error_iff [⟨"7", "Hallmark", ""⟩, ⟨"8", "B", "true"⟩]).2
    rfl

/-! ## `Program._parse` season/episode recovery (frndly_api.py lines 127-147)

```python
self.season = metadata.get('seasonNumber') or metadata.get('season')
self.episode = metadata.get('episodeNumber') or metadata.get('episode')
if not self.season or not self.episode:
    match = re.search(r'[Ss](\d+)[Ee](\d+)', str(self.title) + ' ' + str(self.subtitle))
    if match:
        self.season = int(match.group(1))
        self.episode = int(match.group(2))
try:
    self.season = int(self.season) if self.season else None
except: ...
```
-/

/-- Python truthiness of an optional numeric metadata field
(`None` and `0` are falsy). -/
def pyTruthyNat : Option ℕ → Bool
  | none => false
  | some n => n != 0

/-- Python `a or b` on optional numeric fields. -/
def pyOrNat (a b : Option ℕ) : Option ℕ := if pyTruthyNat a then a else b

/-- Python `int()` of a digit run. -/
def digitsToNat (l : List Char) : ℕ := l.foldl (fun a c => a * 10 + (c.toNat - 48)) 0

/-- One attempt of the regex `[Ss](\d+)[Ee](\d+)` anchored at the head of
the list (greedy digit runs; no backtracking is possible because digits
and `[Ee]` are disjoint). -/
def seAt : List Char → Option (ℕ × ℕ)
  | [] => none
  | c :: rest =>
    if c = 'S' ∨ c = 's' then
      match rest.span (·.isDigit) with
      | (d1, r1) =>
        if d1 = [] then none
        else
          match r1 with
          | e :: r2 =>
            if e = 'E' ∨ e = 'e' then
              match r2.takeWhile (·.isDigit) with
              | [] => none
              | d2 => some (digitsToNat d1, digitsToNat d2)
            else none
          | [] => none
    else none

/-- `re.search` for `[Ss](\d+)[Ee](\d+)`: leftmost match wins. -/
def findSE : List Char → Option (ℕ × ℕ)
  | [] => none
  | c :: rest =>
    match seAt (c :: rest) with
    | some r => some r
    | none => findSE rest

/-- The season/episode part of `Program._parse`: explicit
`seasonNumber`/`season` and `episodeNumber`/`episode` metadata fields
first, then the `S<nn>E<nn>` regex over `title + ' ' + subtitle`,
then Python-truthiness normalisation to `None`. -/
def parse_season_episode (seasonNumber season episodeNumber episode : Option ℕ)
    (title subtitle : String) : Option ℕ × Option ℕ :=
  let s := pyOrNat seasonNumber season
  let e := pyOrNat episodeNumber episode
  let se :=
    if ¬ pyTruthyNat s ∨ ¬ pyTruthyNat e then
      match findSE (title ++ " " ++ subtitle).data with
      | some (a, b) => (some a, some b)
      | none => (s, e)
    else (s, e)
  (if pyTruthyNat se.1 then se.1 else none, if pyTruthyNat se.2 then se.2 else none)

/-- C6: a record with explicit metadata `season=1`, `episode=5` parses to
the same season/episode pair as one with no explicit fields whose title
is `"Show S01E05"` — the regex fallback recovers season 1, episode 5. -/
theorem parse_season_episode_fallback_agrees :
    parse_season_episode (some 1) none (some 5) none "Show" "" =
      parse_season_episode none none none none "Show S01E05" "" ∧
    parse_season_episode none none none none "Show S01E05" "" = (some 1, some 5) := by
  constructor <;> rfl

/-! ## `FrndlyTV._get_play_url` (frndly_api.py lines 522-563) and the
play route (webserver.py lines 388-403)

```python
stream = sorted(data['streams'], key=lambda x: x['keys'].get('licenseKey', ''))[0]
url = stream['url']
stream_type = stream.get('streamType', '')
...  # optional &start=...&startTime=... suffix from playerSettings
if stream_type.lower().strip() in ('widevine',):
    raise FrndlyException(f'Unsupported DRM stream type: {stream_type}')
...
return url
```

Python's `sorted` is a stable ascending sort; for a total preorder the
stable-sorted permutation is unique, so the stable insertion sort
`pySorted` below computes exactly the same list. -/

/-- One offered stream variant of a stream descriptor. -/
structure StreamVariant where
  licenseKey : String
  url : String
  streamType : String
deriving DecidableEq, Repr

/-- Stable insertion of `a` after every already-placed element `b`
with `le b a`. -/
def insLe {α : Type} (le : α → α → Bool) (a : α) : List α → List α
  | [] => [a]
  | b :: bs => if le b a then b :: insLe le a bs else a :: b :: bs

/-- Stable ascending sort (Python `sorted`). -/
def pySorted {α : Type} (le : α → α → Bool) (l : List α) : List α :=
  l.foldl (fun acc x => insLe le x acc) []

/-- The `key=lambda x: x['keys'].get('licenseKey', '')` comparison. -/
def licenseKeyLe (a b : StreamVariant) : Bool := pyStrLe a.licenseKey b.licenseKey

/-- The `&start=...&startTime=...` suffix appended from `playerSettings`
(absent when the settings lookup fails, which is swallowed). -/
def urlWithStart (s : StreamVariant) (playerStart : Option ℤ) : String :=
  match playerStart with
  | some t => s.url ++ "&start=" ++ toString t ++ "&startTime=" ++ toString t
  | none => s.url

/-- `FrndlyTV._get_play_url`: sort the offered variants by license key
ascending, take the first, reject it when its type is widevine, else
return its (possibly suffixed) URL.  `.error` models `FrndlyException`. -/
def get_play_url (path : String) (streams : List StreamVariant)
    (playerStart : Option ℤ) : Except String String :=
  match pySorted licenseKeyLe streams with
  | [] => .error ("Unable to find stream for: " ++ path)
  | s :: _ =>
    if pyStrip (pyLower s.streamType) = "widevine" then
      .error ("Unsupported DRM stream type: " ++ s.streamType)
    else .ok (urlWithStart s playerStart)

/-- HTTP response of the play route. -/
inductive HttpPlayResponse
  | redirect (location : String)
  | errorResp (code : ℕ) (body : String)
deriving DecidableEq, Repr

/-- `FrndlyRequestHandler._handle_play`: 302 redirect on success,
500 with the error text on `FrndlyException`. -/
def handle_play (playResult : Except String String) : HttpPlayResponse :=
  match playResult with
  | .ok url => .redirect url
  | .error e => .errorResp 500 ("Error: " ++ e)

/-- A descriptor offering a clear variant (license key "a") alongside a
widevine variant (license key "b"). -/
def mixedStreams : List StreamVariant :=
  [⟨"a", "http://cdn/clear.m3u8", "HLS"⟩, ⟨"b", "http://cdn/drm.mpd", "widevine"⟩]

/-- C4 counterexample: this descriptor offers a widevine variant, yet
stream resolution succeeds with the clear variant's URL (returned by the
license-key sort) and the play route issues a redirect — the claim that
any offered widevine variant fails resolution is false. -/
theorem get_play_url_offered_widevine_succeeds :
    get_play_url "p" mixedStreams none = .ok "http://cdn/clear.m3u8" ∧
    handle_play (get_play_url "p" mixedStreams none) =
      .redirect "http://cdn/clear.m3u8" := by
  constructor <;> rfl

/-- C4 (amended): the candidate variant is chosen deterministically as
the first of the variants sorted by license-key string ascending;
resolution fails with the unsupported-DRM-stream error — and the play
route answers 500 with no redirect — exactly when that selected
variant's type (lower-cased, stripped) is "widevine"; otherwise it
returns the selected variant's URL and the route redirects to it. -/
theorem get_play_url_drm_selected (path : String) (streams : List StreamVariant)
    (playerStart : Option ℤ) (s : StreamVariant) (rest : List StreamVariant)
    (hsort : pySorted licenseKeyLe streams = s :: rest) :
    (pyStrip (pyLower s.streamType) = "widevine" →
      get_play_url path streams playerStart =
        .error ("Unsupported DRM stream type: " ++ s.streamType) ∧
      handle_play (get_play_url path streams playerStart) =
        .errorResp 500 ("Error: " ++ ("Unsupported DRM stream type: " ++ s.streamType))) ∧
    (pyStrip (pyLower s.streamType) ≠ "widevine" →
      get_play_url path streams playerStart = .ok (urlWithStart s playerStart) ∧
      handle_play (get_play_url path streams playerStart) =
        .redirect (urlWithStart s playerStart)) := by
  constructor
  · intro hdrm
    have h1 : get_play_url path streams playerStart =
        .error ("Unsupported DRM stream type: " ++ s.streamType) := by
      unfold get_play_url
      rw [hsort]
      exact if_pos hdrm
    exact ⟨h1, by rw [h1]; rfl⟩
  · intro hclear
    have h1 : get_play_url path streams playerStart = .ok (urlWithStart s playerStart) := by
      unfold get_play_url
      rw [hsort]
      exact if_neg hclear
    exact ⟨h1, by rw [h1]; rfl⟩

/-- Witness for `get_play_url_drm_selected`: a descriptor whose
sorted-first variant is widevine is rejected with no redirect. -/
theorem get_play_url_drm_selected_witness :
    get_play_url "q" [⟨"k", "http://cdn/drm.mpd", " Widevine "⟩] none =
      .error ("Unsupported DRM stream type: " ++ " Widevine ") ∧
    handle_play (get_play_url "q" [⟨"k", "http://cdn/drm.mpd", " Widevine "⟩] none) =
      .errorResp 500 ("Error: " ++ ("Unsupported DRM stream type: " ++ " Widevine ")) :=
  (get_play_url_drm_selected "q" [⟨"k", "http://cdn/drm.mpd", " Widevine "⟩] none
    ⟨"k", "http://cdn/drm.mpd", " Widevine "⟩ [] rfl).1 rfl

/-! ## `FrndlyTV._request` (frndly_api.py lines 651-681)

```python
def _request(self, url, params=None, retry_count=3):
    for attempt in range(retry_count):
        try:
            response = requests.get(url, ...)
            data = response.json()
            if 'response' in data:
                return data['response']
            try:
                error_code = data['error']['code']
                error_msg = data['error'].get('message', 'Unknown error')
                if error_code == 404:
                    raise FrndlyException(error_msg)
            except KeyError:
                pass
            self.login()
        except FrndlyException:
            raise
        except Exception as e:
            if attempt < retry_count - 1:
                time.sleep(1)
    raise FrndlyException(f'Failed to get response from: {url}')
```

One attempt's observable upstream behaviour: -/

inductive NetOutcome (α : Type)
  | transport
  | success (v : α)
  | apiError (code : ℤ) (msg : String)
  | badEnvelope
deriving DecidableEq, Repr

/-- `FrndlyTV._request` over a list of per-attempt upstream outcomes (one
entry per loop iteration; `login` is the outcome of any forced re-login).
Returns (result, attempts made, seconds slept in backoff). -/
def api_request {α : Type} (url : String) (login : Except String Unit) :
    List (NetOutcome α) → Except String α × ℕ × ℕ
  | [] => (.error ("Failed to get response from: " ++ url), 0, 0)
  | o :: rest =>
    match o with
    | .success v => (.ok v, 1, 0)
    | .apiError code msg =>
      if code = 404 then (.error msg, 1, 0)
      else
        match login with
        | .error e => (.error e, 1, 0)
        | .ok _ =>
          let (r, a, sl) := api_request url login rest
          (r, a + 1, sl)
    | .badEnvelope =>
      match login with
      | .error e => (.error e, 1, 0)
      | .ok _ =>
        let (r, a, sl) := api_request url login rest
        (r, a + 1, sl)
    | .transport =>
      let (r, a, sl) := api_request url login rest
      (r, a + 1, if rest.isEmpty then sl else sl + 1)

/-- C5: when every attempt fails at the transport level, `_request` makes
exactly 3 attempts with a 1-second backoff between consecutive attempts
(2 seconds total), never surfaces the transport fault itself, and finally
raises the generic error naming the requested endpoint. -/
theorem api_request_transport_exhaustion {α : Type} (url : String)
    (login : Except String Unit) (outcomes : List (NetOutcome α))
    (hlen : outcomes.length = 3) (hall : ∀ o ∈ outcomes, o = NetOutcome.transport) :
    api_request url login outcomes =
      (.error ("Failed to get response from: " ++ url), 3, 2) := by
  match outcomes, hlen with
  | [o1, o2, o3], _ =>
    have h1 := hall o1 (by simp)
    have h2 := hall o2 (by simp)
    have h3 := hall o3 (by simp)
    subst h1; subst h2; subst h3
    rfl

/-- Witness for `api_request_transport_exhaustion` at a concrete trace. -/
theorem api_request_transport_exhaustion_witness :
    api_request (α := ℕ) "https://frndlytv-api.revlet.net/x" (.ok ())
        [.transport, .transport, .transport] =
      (.error "Failed to get response from: https://frndlytv-api.revlet.net/x", 3, 2) :=
  api_request_transport_exhaustion "https://frndlytv-api.revlet.net/x" (.ok ())
    [.transport, .transport, .transport] rfl (by decide)

/-! ## Playlist generation (webserver.py lines 200-269)

```python
include = [x.lower().strip() for x in params.get('include', '').split(',') if x.strip()]
exclude = [x.lower().strip() for x in params.get('exclude', '').split(',') if x.strip()]
gracenote = params.get('gracenote', '').lower().strip()
for channel in channels:
    channel_id = f'frndly-{channel_id_num}'
    data = live_map.get(channel_id_num, {})
    gracenote_id = data.get('gracenote')
    if (include and channel_id.lower() not in include) or (exclude and channel_id.lower() in exclude):
        continue
    if (gracenote == 'include' and not gracenote_id) or (gracenote == 'exclude' and gracenote_id):
        continue
    ... emit one EXTINF line ...
```
-/

/-- One entry of the external channel-mapping document (`live_map`). -/
structure MapData where
  slug : Option String
  chno : Option ℕ
  gracenote : Option String
deriving DecidableEq, Repr

/-- `live_map.get(channel_id_num, {})`. -/
def lookupMap (lm : List (String × MapData)) (cid : String) : MapData :=
  match lm.lookup cid with
  | some d => d
  | none => ⟨none, none, none⟩

/-- Python truthiness of `data.get('gracenote')` (`None` and `''` falsy). -/
def pyTruthyStr : Option String → Bool
  | none => false
  | some s => s != ""

/-- The prefixed channel identifier `f'frndly-{channel_id_num}'`. -/
def channel_id (ch : ChannelRow) : String := "frndly-" ++ ch.id

/-- Query-parameter list processing
`[x.lower().strip() for x in raw.split(',') if x.strip()]`
(applied to the already-split comma components). -/
def procEntries (xs : List String) : List String :=
  (xs.filter (fun x => pyStrip x != "")).map (fun x => pyStrip (pyLower x))

/-- Negation of the two `continue` guards of the playlist loop: `true`
iff the loop emits an `#EXTINF` line for this channel. -/
def keepChannel (includeList excludeList : List String) (gracenoteMode : String)
    (lm : List (String × MapData)) (ch : ChannelRow) : Bool :=
  let cid := pyLower (channel_id ch)
  let gid := (lookupMap lm ch.id).gracenote
  (includeList.isEmpty || decide (cid ∈ includeList)) &&
  (excludeList.isEmpty || !(decide (cid ∈ excludeList))) &&
  (!(gracenoteMode == "include") || pyTruthyStr gid) &&
  (!(gracenoteMode == "exclude") || !(pyTruthyStr gid))

/-- The channels for which `_handle_playlist` emits an `#EXTINF` line,
in order. -/
def playlistChannels (channels : List ChannelRow) (lm : List (String × MapData))
    (includeList excludeList : List String) (gracenoteMode : String) : List ChannelRow :=
  channels.filter (keepChannel includeList excludeList gracenoteMode lm)

/-- C7: with no include/exclude parameters, `gracenote=include` emits
exactly the channels with a non-empty gracenote identifier,
`gracenote=exclude` exactly those without one; together (in multiset
terms) they are a permutation of the full channel list, and no channel
is emitted by both. -/
theorem playlist_gracenote_partition (channels : List ChannelRow)
    (lm : List (String × MapData)) :
    playlistChannels channels lm [] [] "include" =
      channels.filter (fun ch => pyTruthyStr (lookupMap lm ch.id).gracenote) ∧
    playlistChannels channels lm [] [] "exclude" =
      channels.filter (fun ch => !(pyTruthyStr (lookupMap lm ch.id).gracenote)) ∧
    List.Perm
      (playlistChannels channels lm [] [] "include" ++
        playlistChannels channels lm [] [] "exclude") channels ∧
    ∀ ch, ch ∈ playlistChannels channels lm [] [] "include" →
      ch ∉ playlistChannels channels lm [] [] "exclude" := by
  have e1 : (("include" : String) == "include") = true := by decide
  have e2 : (("include" : String) == "exclude") = false := by decide
  have e3 : (("exclude" : String) == "include") = false := by decide
  have e4 : (("exclude" : String) == "exclude") = true := by decide
  have hinc : playlistChannels channels lm [] [] "include" =
      channels.filter (fun ch => pyTruthyStr (lookupMap lm ch.id).gracenote) := by
    apply List.filter_congr
    intro ch _
    simp [keepChannel, e1, e2]
  have hexc : playlistChannels channels lm [] [] "exclude" =
      channels.filter (fun ch => !(pyTruthyStr (lookupMap lm ch.id).gracenote)) := by
    apply List.filter_congr
    intro ch _
    simp [keepChannel, e3, e4]
  refine ⟨hinc, hexc, ?_, ?_⟩
  · rw [hinc, hexc]
    exact List.filter_append_perm _ channels
  · intro ch h1 h2
    rw [hinc, List.mem_filter] at h1
    rw [hexc, List.mem_filter] at h2
    rw [h1.2] at h2
    exact absurd h2.2 (by simp)

/-- Channels and mapping used by the playlist witnesses. -/
def chWithG : ChannelRow := ⟨"101", "Alpha", ""⟩

def chNoG : ChannelRow := ⟨"102", "Beta", ""⟩

def lmEx : List (String × MapData) := [("101", ⟨none, none, some "g1"⟩)]

/-- Witness for `playlist_gracenote_partition`: on a concrete two-channel
list, the channel with a gracenote id is emitted by `include` and not by
`exclude`. -/
theorem playlist_gracenote_partition_witness :
    chWithG ∉ playlistChannels [chWithG, chNoG] lmEx [] [] "exclude" :=
  (playlist_gracenote_partition [chWithG, chNoG] lmEx).2.2.2 chWithG (by decide)

/-! ## C10 support: lowering and stripping leave `frndly-<digits>`
identifiers unchanged, and the prefixed id never equals the bare id. -/

theorem toLower_of_isDigit (c : Char) (h : c.isDigit = true) : c.toLower = c := by
  simp only [Char.isDigit, Bool.and_eq_true, decide_eq_true_eq] at h
  have h57 : c.val.toNat ≤ 57 := h.2
  simp only [Char.toLower, Char.toNat]
  exact if_neg (by omega)

theorem isPySpace_eq_false_of_isDigit (c : Char) (h : c.isDigit = true) :
    isPySpace c = false := by
  simp only [Char.isDigit, Bool.and_eq_true, decide_eq_true_eq] at h
  have h48 : 48 ≤ c.val.toNat := h.1
  have h57 : c.val.toNat ≤ 57 := h.2
  simp only [isPySpace, Bool.or_eq_false_iff, decide_eq_false_iff_not]
  and_intros <;> (intro he; subst he; revert h48 h57; decide)

theorem dropWhile_eq_self_of_all {p : Char → Bool} :
    ∀ l : List Char, (∀ c ∈ l, p c = false) → l.dropWhile p = l
  | [], _ => rfl
  | c :: cs, h => by
    rw [List.dropWhile_cons, h c (by simp)]
    simp

theorem stripL_eq_self_of_all (l : List Char) (h : ∀ c ∈ l, isPySpace c = false) :
    stripL l = l := by
  unfold stripL
  rw [dropWhile_eq_self_of_all l h,
      dropWhile_eq_self_of_all l.reverse
        (fun c hc => h c (List.mem_reverse.mp hc)),
      List.reverse_reverse]

theorem pyStrip_eq_self (s : String) (h : ∀ c ∈ s.data, isPySpace c = false) :
    pyStrip s = s :=
  congrArg String.mk (stripL_eq_self_of_all s.data h)

theorem map_toLower_eq_self :
    ∀ l : List Char, (∀ c ∈ l, c.isDigit = true) → l.map Char.toLower = l
  | [], _ => rfl
  | c :: cs, h => by
    rw [List.map_cons, toLower_of_isDigit c (h c (by simp)),
        map_toLower_eq_self cs (fun x hx => h x (by simp [hx]))]

theorem pyLower_append (a b : String) : pyLower (a ++ b) = pyLower a ++ pyLower b :=
  congrArg String.mk (List.map_append Char.toLower a.data b.data)

theorem pyLower_digits (s : String) (h : ∀ c ∈ s.data, c.isDigit = true) :
    pyLower s = s :=
  congrArg String.mk (map_toLower_eq_self s.data h)

theorem mem_append_data (a b : String) (c : Char) (hc : c ∈ (a ++ b).data) :
    c ∈ a.data ∨ c ∈ b.data := by
  have : (a ++ b).data = a.data ++ b.data := rfl
  rw [this] at hc
  exact List.mem_append.mp hc

theorem frndly_prefixed_ne (idStr : String) : "frndly-" ++ idStr ≠ idStr := by
  intro h
  have := congrArg (fun s : String => s.data.length) h
  simp at this
  omega

theorem frndly_no_space (c : Char) (hc : c ∈ ("frndly-" : String).data) :
    isPySpace c = false := by
  have hd : ("frndly-" : String).data = ['f', 'r', 'n', 'd', 'l', 'y', '-'] := rfl
  rw [hd] at hc
  simp only [List.mem_cons, List.not_mem_nil, or_false] at hc
  rcases hc with rfl | rfl | rfl | rfl | rfl | rfl | rfl <;> decide

theorem frndlyU_no_space (c : Char) (hc : c ∈ ("FRNDLY-" : String).data) :
    isPySpace c = false := by
  have hd : ("FRNDLY-" : String).data = ['F', 'R', 'N', 'D', 'L', 'Y', '-'] := rfl
  rw [hd] at hc
  simp only [List.mem_cons, List.not_mem_nil, or_false] at hc
  rcases hc with rfl | rfl | rfl | rfl | rfl | rfl | rfl <;> decide

theorem procEntries_single (x : String) (hx : pyStrip x ≠ "") :
    procEntries [x] = [pyStrip (pyLower x)] := by
  simp [procEntries, hx]

/-- C10: include/exclude query filters are matched case-insensitively
against the prefixed channel identifier `frndly-<id>`, not the bare
upstream numeric id: with `include` set to the bare id, no line is
emitted for the channel; with `include` set to `frndly-<id>` (any
letter case, e.g. all-uppercase) its line is emitted. -/
theorem playlist_include_matches_prefixed_id
    (channels : List ChannelRow) (lm : List (String × MapData)) (ch : ChannelRow)
    (hch : ch ∈ channels) (hne : ch.id ≠ "")
    (hdig : ∀ c ∈ ch.id.data, c.isDigit = true) :
    ch ∉ playlistChannels channels lm (procEntries [ch.id]) [] "" ∧
    ch ∈ playlistChannels channels lm (procEntries ["frndly-" ++ ch.id]) [] "" ∧
    ch ∈ playlistChannels channels lm (procEntries ["FRNDLY-" ++ ch.id]) [] "" := by
  have hnospace : ∀ c ∈ ch.id.data, isPySpace c = false :=
    fun c hc => isPySpace_eq_false_of_isDigit c (hdig c hc)
  have hlow : pyLower ch.id = ch.id := pyLower_digits ch.id hdig
  have hstrip : pyStrip ch.id = ch.id := pyStrip_eq_self ch.id hnospace
  have hplow : pyLower ("frndly-" ++ ch.id) = "frndly-" ++ ch.id := by
    rw [pyLower_append, hlow]
    rfl
  have hcid : pyLower (channel_id ch) = "frndly-" ++ ch.id := hplow
  have hproc1 : procEntries [ch.id] = [ch.id] := by
    rw [procEntries_single ch.id (by rw [hstrip]; exact hne), hlow, hstrip]
  have hLnospace : ∀ c ∈ ("frndly-" ++ ch.id).data, isPySpace c = false := by
    intro c hc
    rcases mem_append_data _ _ c hc with h | h
    · exact frndly_no_space c h
    · exact hnospace c h
  have hst : pyStrip ("frndly-" ++ ch.id) = "frndly-" ++ ch.id :=
    pyStrip_eq_self _ hLnospace
  have hne7 : ("frndly-" ++ ch.id : String) ≠ "" := by
    intro hcon
    have := congrArg (fun s : String => s.data.length) hcon
    simp at this
  have hproc2 : procEntries ["frndly-" ++ ch.id] = ["frndly-" ++ ch.id] := by
    rw [procEntries_single _ (by rw [hst]; exact hne7), hplow, hst]
  have hUnospace : ∀ c ∈ ("FRNDLY-" ++ ch.id).data, isPySpace c = false := by
    intro c hc
    rcases mem_append_data _ _ c hc with h | h
    · exact frndlyU_no_space c h
    · exact hnospace c h
  have hstU : pyStrip ("FRNDLY-" ++ ch.id) = "FRNDLY-" ++ ch.id :=
    pyStrip_eq_self _ hUnospace
  have hneU : ("FRNDLY-" ++ ch.id : String) ≠ "" := by
    intro hcon
    have := congrArg (fun s : String => s.data.length) hcon
    simp at this
  have hUlow : pyLower ("FRNDLY-" ++ ch.id) = "frndly-" ++ ch.id := by
    rw [pyLower_append, hlow]
    have hU : pyLower "FRNDLY-" = "frndly-" := by decide
    rw [hU]
  have hproc3 : procEntries ["FRNDLY-" ++ ch.id] = ["frndly-" ++ ch.id] := by
    rw [procEntries_single _ (by rw [hstU]; exact hneU), hUlow, hst]
  have eInc : (("" : String) == "include") = false := by decide
  have eExc : (("" : String) == "exclude") = false := by decide
  refine ⟨?_, ?_, ?_⟩
  · intro hmem
    rw [playlistChannels, hproc1, List.mem_filter] at hmem
    have hk := hmem.2
    simp [keepChannel, hcid] at hk
    exact frndly_prefixed_ne ch.id hk
  · rw [playlistChannels, hproc2, List.mem_filter]
    refine ⟨hch, ?_⟩
    simp [keepChannel, hcid, eInc, eExc]
  · rw [playlistChannels, hproc3, List.mem_filter]
    refine ⟨hch, ?_⟩
    simp [keepChannel, hcid, eInc, eExc]

/-- Witness for `playlist_include_matches_prefixed_id` on a concrete
channel with id "42". -/
theorem playlist_include_prefixed_witness :
    (⟨"42", "X", ""⟩ : ChannelRow) ∉
      playlistChannels [⟨"42", "X", ""⟩] [] (procEntries ["42"]) [] "" ∧
    (⟨"42", "X", ""⟩ : ChannelRow) ∈
      playlistChannels [⟨"42", "X", ""⟩] [] (procEntries ["frndly-42"]) [] "" ∧
    (⟨"42", "X", ""⟩ : ChannelRow) ∈
      playlistChannels [⟨"42", "X", ""⟩] [] (procEntries ["FRNDLY-42"]) [] "" :=
  playlist_include_matches_prefixed_id [⟨"42", "X", ""⟩] [] ⟨"42", "X", ""⟩
    (by simp) (by decide) (by decide)

/-! ## Server lifecycle (webserver.py lines 425-473, service.py lines 70-125)

```python
def start_server(port, api):
    global _server, _server_thread
    if _server is not None:
        stop_server()
    try:
        _server = ThreadedHTTPServer(('0.0.0.0', port), FrndlyRequestHandler)
        ...
        return True
    except Exception as e:
        ...
        return False
```

`FrndlyService.start_server` (service.py) wraps it:

```python
if get_setting('enable_server') != 'true': return False
api = self.get_api()
if not api: return False
try:
    if not api.is_logged_in(): api.login()
except ...: return False
if is_running():
    return True
if start_server(port, api): ...
```

The module state `_server` is modelled as `Option ℕ`, the `ℕ` being the
identity of the listening `ThreadedHTTPServer` instance; a newly
constructed instance carries a fresh identity `freshId`. -/

/-- `webserver.stop_server`: the instance is shut down and the module
state cleared. -/
def stop_server (st : Option ℕ) : Option ℕ :=
  match st with
  | _ => none

/-- `webserver.start_server`: stop any running instance, then try to bind
a fresh one; `bindOk` is whether `ThreadedHTTPServer(...)` succeeds. -/
def start_server (st : Option ℕ) (freshId : ℕ) (bindOk : Bool) : Bool × Option ℕ :=
  let st1 := if st.isSome then stop_server st else st
  if bindOk then (true, some freshId) else (false, st1)

/-- `FrndlyService.start_server`: settings/credentials/login guards, then
the `is_running()` no-op short circuit, then the module-level start. -/
def service_start_server (st : Option ℕ) (freshId : ℕ)
    (enabled hasCreds loginOk bindOk : Bool) : Bool × Option ℕ :=
  if !enabled then (false, st)
  else if !hasCreds then (false, st)
  else if !loginOk then (false, st)
  else if st.isSome then (true, st)
  else start_server st freshId bindOk

/-- C8 counterexample: calling the module-level `start_server` while
instance `0` is listening returns `true` but *replaces* the server:
the old instance is stopped and a fresh instance `1` installed, so the
already-listening instance is not left in place. -/
theorem start_server_replaces_running :
    start_server (some 0) 1 true = (true, some 1) ∧
    (start_server (some 0) 1 true).2 ≠ some 0 := by decide

/-- C8 (amended): the module-level `webserver.start_server`, called while
a server is running, is not a no-op: it stops the existing instance and
installs a freshly constructed one (returning `true` on successful bind,
`false` with no server on bind failure).  The idempotent no-op success
lives one level up: `FrndlyService.start_server` (with the server
enabled, credentials present and login succeeding) returns `true` and
leaves the already-listening instance in place. -/
theorem start_server_idempotence (st : Option ℕ) (freshId k : ℕ) (bindOk : Bool)
    (hrun : st = some k) :
    start_server st freshId bindOk =
      (if bindOk then (true, some freshId) else (false, none)) ∧
    service_start_server st freshId true true true bindOk = (true, some k) := by
  subst hrun
  cases bindOk <;> simp [start_server, service_start_server, stop_server]

/-- Witness for `start_server_idempotence` with instance `5` running. -/
theorem start_server_idempotence_witness :
    start_server (some 5) 9 true = (true, some 9) ∧
    service_start_server (some 5) 9 true true true true = (true, some 5) := by
  have h := start_server_idempotence (some 5) 9 5 true rfl
  simpa using h
